import Mathlib

/-!
Shallow embedding of the payment-processing API of Project Fortress
(Express/Node.js): the card validators, the request validator middleware
(src/middleware/validation.js), the two-tier rate limiting
(src/middleware/rateLimit.js and the app-wide limiter in app.js), the
central error handler (middleware/errorHandler.js), the gateway client
(src/services/stripeService.js) and the payment routes
(src/routes/payments.js).  JavaScript numbers are modelled as rationals
(with an explicit NaN marker where NaN can arise), absent values as
`Option`, and thrown errors as explicit error branches.
-/

namespace Fortress

/-- Model of a JavaScript value as it can appear in a JSON request body
field.  `nan` is kept separate from `num` because `NaN` is falsy and
`typeof NaN = number`. -/
inductive JsVal where
  | num (q : ℚ)
  | nan
  | str (s : String)
  | boolV (b : Bool)
  | nullV
  deriving DecidableEq

/-- JavaScript truthiness of a `JsVal`: `0`, `NaN`, `""`, `false` and
`null` are falsy. -/
def JsVal.truthy : JsVal → Bool
  | .num q => q ≠ 0
  | .nan => false
  | .str s => s ≠ ""
  | .boolV b => b
  | .nullV => false

/-- Truthiness of a possibly-absent value (`undefined` is falsy). -/
def truthyOV : Option JsVal → Bool
  | none => false
  | some v => v.truthy

/-- Truthiness of a possibly-absent string field (`undefined` and the
empty string are falsy). -/
def truthyOS : Option String → Bool
  | none => false
  | some s => s ≠ ""

/-- Value of an ASCII digit character. -/
def charDigitVal (c : Char) : ℕ := c.toNat - 48

/-- Numeric value of a list of ASCII digit characters (most significant
first). -/
def digitsVal (cs : List Char) : ℕ :=
  cs.foldl (fun a c => 10 * a + charDigitVal c) 0

/-- Model of JavaScript `parseInt(s, 10)` on a list of characters: skip
leading whitespace, an optional sign, then the longest digit prefix;
`none` (NaN) when that prefix is empty. -/
def parseIntChars (cs : List Char) : Option ℤ :=
  match cs.dropWhile Char.isWhitespace with
  | [] => none
  | c :: rest =>
      if c = '-' then
        let ds := rest.takeWhile Char.isDigit
        if ds.isEmpty then none else some (-(digitsVal ds : ℤ))
      else if c = '+' then
        let ds := rest.takeWhile Char.isDigit
        if ds.isEmpty then none else some (digitsVal ds : ℤ)
      else
        let ds := (c :: rest).takeWhile Char.isDigit
        if ds.isEmpty then none else some (digitsVal ds : ℤ)

/-- Model of JavaScript `parseInt(s, 10)`; `none` models `NaN`. -/
def parseIntJs (s : String) : Option ℤ := parseIntChars s.data

/-- Helper for `jsSplitSlash`: accumulates the current segment in
reverse. -/
def splitSlashAux : List Char → List Char → List String
  | [], acc => [String.mk acc.reverse]
  | c :: rest, acc =>
      if c = '/' then String.mk acc.reverse :: splitSlashAux rest []
      else splitSlashAux rest (c :: acc)

/-- Model of JavaScript `s.split('/')`: always returns at least one
segment (`"".split('/') = [""]`). -/
def jsSplitSlash (s : String) : List String := splitSlashAux s.data []

/-- Model of a JavaScript comparison `x < b` where `x` may be NaN
(`none`): every comparison with NaN is false. -/
def jsLtO (x : Option ℤ) (b : ℤ) : Bool :=
  match x with
  | some a => a < b
  | none => false

/-- Model of a JavaScript strict equality `x === b` where `x` may be NaN:
`NaN === b` is false. -/
def jsEqO (x : Option ℤ) (b : ℤ) : Bool :=
  match x with
  | some a => a = b
  | none => false

/-! ### Card validators (src/middleware/validation.js) -/

/-- Model of `cardNumber.replace(/[\s-]/g, '')`: drop whitespace and
dashes. -/
def cleanCard (s : String) : List Char :=
  s.data.filter (fun c => !(c.isWhitespace || c = '-'))

/-- Luhn digit transform of `validateCreditCard`: when `isEven` the digit
is doubled and reduced by 9 if the double exceeds 9. -/
def luhnDigit (isEven : Bool) (d : ℕ) : ℕ :=
  if isEven then (if d * 2 > 9 then d * 2 - 9 else d * 2) else d

/-- Loop of `validateCreditCard`, modelled as recursion over the reversed
character list (the source iterates `i` from the last character down to
the first, toggling `isEven` at every step).  `parseInt` of a non-digit
character is NaN, and once the running sum is NaN it stays NaN: `none`
propagates. -/
def luhnLoop : List Char → Bool → Option ℕ
  | [], _ => some 0
  | c :: rest, isEven =>
      match luhnLoop rest (!isEven), (if c.isDigit then some (charDigitVal c) else none) with
      | some s, some d => some (s + luhnDigit isEven d)
      | _, _ => none

/-- Embedding of `validateCreditCard` (validation.js lines 4-27): strip
spaces and dashes, run the Luhn loop from the rightmost character with
`isEven = false`, accept iff the sum is a number and divisible by 10. -/
def validateCreditCard (cardNumber : String) : Bool :=
  match luhnLoop (cleanCard cardNumber).reverse false with
  | some sum => sum % 10 = 0
  | none => false

/-- Current date as seen by `validateExpiryDate`: `fullYear` is
`getFullYear()` and `month` is `getMonth() + 1` (1-12). -/
structure DateYM where
  fullYear : ℕ
  month : ℕ
  deriving DecidableEq

/-- Embedding of `validateExpiryDate` (validation.js lines 29-44):
destructure `expiryDate.split('/')` into month and year (the year is
`undefined` when there is no separator, and `parseInt(undefined)` is
NaN), compare against the current year mod 100 and current month with
JavaScript NaN comparison semantics. -/
def validateExpiryDate (expiryDate : String) (now : DateYM) : Bool :=
  let parts := jsSplitSlash expiryDate
  let month := parts.headD ""
  let year : Option String := parts[1]?
  let currentYear : ℤ := (now.fullYear % 100 : ℕ)
  let currentMonth : ℤ := now.month
  let expiryYear : Option ℤ := year.bind parseIntJs
  let expiryMonth : Option ℤ := parseIntJs month
  if jsLtO expiryYear currentYear ||
      (jsEqO expiryYear currentYear && jsLtO expiryMonth currentMonth) then
    false
  else
    true

/-- Embedding of `validateCVV` (validation.js lines 46-48): the regex
`^\d{3,4}$`. -/
def validateCVV (cvv : String) : Bool :=
  (cvv.length = 3 || cvv.length = 4) && cvv.data.all Char.isDigit

/-! ### Request validator middleware (src/middleware/validation.js) -/

/-- The `cardDetails` object of a request body; each field may be
absent. -/
structure CardDetails where
  cardNumber : Option String
  expiryDate : Option String
  cvv : Option String
  deriving DecidableEq

/-- A POST /payments request body.  `amount` keeps the full JavaScript
value model (its type and truthiness both matter to the validator);
`currency` and `paymentMethod` are compared against string lists, so
only their string value and presence matter. -/
structure Body where
  amount : Option JsVal
  currency : Option String
  paymentMethod : Option String
  cardDetails : Option CardDetails
  deriving DecidableEq

/-- Outcome of the validator middleware: call `next()` or respond with a
status and a JSON error message. -/
inductive ValidationResult where
  | ok
  | reject (status : ℕ) (msg : String)
  deriving DecidableEq

/-- The check `typeof amount !== 'number' || amount <= 0` of
validation.js line 63 (note `typeof NaN = 'number'` and `NaN <= 0` is
false). -/
def amountNotPositiveNumber : Option JsVal → Bool
  | some (.num q) => q ≤ 0
  | some .nan => false
  | some _ => true
  | none => true

/-- Embedding of the `validatePayment` middleware (validation.js lines
50-137), checked in source order with JavaScript truthiness for the
presence tests. -/
def validatePayment (body : Body) (now : DateYM) : ValidationResult :=
  if truthyOV body.amount = false || truthyOS body.currency = false ||
      truthyOS body.paymentMethod = false then
    .reject 400 "Missing required fields: amount, currency, and paymentMethod are required"
  else if amountNotPositiveNumber body.amount then
    .reject 400 "Amount must be a positive number"
  else if ¬ (["USD", "EUR", "GBP"].contains (body.currency.getD "")) then
    .reject 400 "Currency must be one of: USD, EUR, GBP"
  else if ¬ (["credit_card", "bank_transfer"].contains (body.paymentMethod.getD "")) then
    .reject 400 "Payment method must be one of: credit_card, bank_transfer"
  else if body.paymentMethod = some "credit_card" then
    match body.cardDetails with
    | none => .reject 400 "Card details are required for credit card payments"
    | some cd =>
      if truthyOS cd.cardNumber = false || truthyOS cd.expiryDate = false ||
          truthyOS cd.cvv = false then
        .reject 400 "Card number, expiry date, and CVV are required"
      else if validateCreditCard (cd.cardNumber.getD "") = false then
        .reject 400 "Invalid card number"
      else if validateExpiryDate (cd.expiryDate.getD "") now = false then
        .reject 400 "Card has expired or invalid expiry date"
      else if validateCVV (cd.cvv.getD "") = false then
        .reject 400 "Invalid CVV"
      else .ok
  else .ok

/-! ### Central error handler (src/middleware/errorHandler.js) -/

/-- A JavaScript error object, with the fields the error handler reads:
`name`, `message` and an optional numeric `status`. -/
structure JsError where
  name : String
  message : String
  status : Option ℕ
  deriving DecidableEq

/-- An HTTP response, distinguishing the body shapes the system can
produce: the success envelope of the payment routes, the
`{success:false, error:...}` JSON of the validator and the rate
limiters, the plain default body of express-rate-limit, and the
`{error:{message,status,...}}` envelope of the central error handler. -/
inductive Response where
  | success (status : ℕ) (id : String) (intentStatus : String) (amount : ℚ) (currency : String)
  | jsonError (status : ℕ) (error : String)
  | plainText (status : ℕ) (text : String)
  | errorEnvelope (status : ℕ) (message : String)
  deriving DecidableEq

/-- Status code of a response. -/
def Response.statusCode : Response → ℕ
  | .success s _ _ _ _ => s
  | .jsonError s _ => s
  | .plainText s _ => s
  | .errorEnvelope s _ => s

/-- The default `err.status || 500` of errorHandler.js line 59 (a status
of 0 is falsy in JavaScript). -/
def statusOr500 (e : JsError) : ℕ :=
  match e.status with
  | some s => if s = 0 then 500 else s
  | none => 500

/-- Embedding of the central `errorHandler` (errorHandler.js lines
3-43): default status `err.status || 500` and message
`err.message || 'Internal Server Error'`, then the three name-keyed
overrides, then the production masking of 500 messages. -/
def errorHandler (e : JsError) (production : Bool) : Response :=
  let status0 := statusOr500 e
  let message0 := if e.message = "" then "Internal Server Error" else e.message
  let (status1, message1) :=
    if e.name = "ValidationError" then (400, "Validation Error")
    else if e.name = "UnauthorizedError" then (401, "Unauthorized")
    else if e.name = "ForbiddenError" then (403, "Forbidden")
    else (status0, message0)
  let message2 := if production && status1 = 500 then "Internal Server Error" else message1
  .errorEnvelope status1 message2

/-! ### Gateway client (src/services/stripeService.js) -/

/-- A payment intent as returned by the gateway: the fields read by the
routes.  `amount` is an integer in minor units. -/
structure Intent where
  id : String
  intentStatus : String
  amount : ℤ
  currency : String
  deriving DecidableEq

/-- Parameters of `stripe.paymentIntents.create` as assembled by
`stripeService.createPaymentIntent`. -/
structure IntentParams where
  amount : ℤ
  currency : String
  payment_method : String
  deriving DecidableEq

/-- Parameters of `stripe.paymentMethods.create` as assembled by the
POST handler (payments.js lines 17-25): the card fields, with the expiry
split on `/` and parsed. -/
structure MethodParams where
  number : Option String
  exp_month : Option ℤ
  exp_year : Option ℤ
  cvc : Option String
  deriving DecidableEq

/-- The external gateway, modelled as the outcomes of its two creation
calls and the retrieval call; each may reject with a JavaScript
error. -/
structure Gateway where
  createMethod : MethodParams → Except JsError String
  createIntent : IntentParams → Except JsError Intent
  retrieveIntent : String → Except JsError Intent

/-- JavaScript `Math.round`: round half toward positive infinity,
`Math.round(x) = floor(x + 1/2)`. -/
def jsRound (q : ℚ) : ℤ := (q + 1 / 2).floor

/-- Model of JavaScript `s.toLowerCase()` on the ASCII currency codes
used here: lowercase each character. -/
def jsToLower (s : String) : String := String.mk (s.data.map Char.toLower)

/-- Embedding of `stripeService.createPaymentIntent` (stripeService.js
lines 9-28): convert the amount to minor units with
`Math.round(amount * 100)`, lowercase the currency, and create the
intent (confirm and redirect flags do not change the data flow modelled
here; a gateway error is logged and re-thrown unchanged). -/
def stripeCreatePaymentIntent (g : Gateway) (amount : ℚ) (currency : String)
    (paymentMethod : String) : Except JsError Intent :=
  g.createIntent ⟨jsRound (amount * 100), jsToLower currency, paymentMethod⟩

/-! ### Payment routes (src/routes/payments.js) behind the app-wide
limiter of app.js -/

/-- Fixed-window rate-limit counters for one client IP inside the
current windows: the app-wide limiter of app.js (15 min / 100, default
options), the router-level `paymentLimiter` (15 min / 100, custom JSON
message) and the `failedPaymentLimiter` (60 min / 5).  Each limiter has
its own store; express-rate-limit increments the counter on each request
through it and rejects when the incremented count exceeds the limit. -/
structure AppState where
  appGeneral : ℕ
  routeGeneral : ℕ
  failed : ℕ
  deriving DecidableEq

/-- The TypeError thrown by `cardDetails.cardNumber` (payments.js line
20) when `cardDetails` is undefined. -/
def cardNumberTypeError : JsError :=
  ⟨"TypeError", "Cannot read properties of undefined (reading cardNumber)", none⟩

/-- The TypeError thrown by `cardDetails.expiryDate.split(...)`
(payments.js line 21) when `expiryDate` is undefined. -/
def expirySplitTypeError : JsError :=
  ⟨"TypeError", "Cannot read properties of undefined (reading split)", none⟩

/-- Result of one POST /payments request: the response sent, the updated
rate-limit counters, whether each gateway call was made, and the error
passed to `next(error)` (hence to the central error handler), if
any. -/
structure PostOutcome where
  response : Response
  state : AppState
  gatewayMethodCalled : Bool
  gatewayIntentCalled : Bool
  handledError : Option JsError
  deriving DecidableEq

/-- The catch block of the POST handler (payments.js lines 45-50): run
`failedPaymentLimiter` (incrementing the failed counter; its handler
responds 429 when the count exceeds 5) and call `next(error)`; when the
failed limiter has not tripped, the central error handler formats the
response. -/
def catchFailure (st : AppState) (production : Bool) (e : JsError)
    (methodCalled intentCalled : Bool) : PostOutcome :=
  let failed := st.failed + 1
  { response :=
      if failed > 5 then
        .jsonError 429 "Too many failed payment attempts, please try again later"
      else
        errorHandler e production,
    state := { st with failed := failed },
    gatewayMethodCalled := methodCalled,
    gatewayIntentCalled := intentCalled,
    handledError := some e }

/-- Numeric value of the body amount; the POST handler only reads it
after validation has established it is a positive number. -/
def jsNumOf : Option JsVal → ℚ
  | some (.num q) => q
  | _ => 0

/-- Embedding of one POST /payments request through the full chain of
app.js and payments.js: app-wide limiter, router-level
`paymentLimiter`, `validatePayment`, then the handler creating the
payment method (reading `cardDetails.cardNumber` and splitting
`cardDetails.expiryDate`, each a TypeError when undefined) and the
payment intent, responding 201 with the intent amount divided by 100;
any error thrown in the handler goes through the catch block. -/
def postPayment (st : AppState) (production : Bool) (body : Body) (now : DateYM)
    (g : Gateway) : PostOutcome :=
  let appG := st.appGeneral + 1
  let st1 := { st with appGeneral := appG }
  if appG > 100 then
    ⟨.plainText 429 "Too many requests, please try again later.", st1, false, false, none⟩
  else
    let routeG := st1.routeGeneral + 1
    let st2 := { st1 with routeGeneral := routeG }
    if routeG > 100 then
      ⟨.jsonError 429 "Too many payment requests, please try again later", st2, false, false, none⟩
    else
      match validatePayment body now with
      | .reject s m => ⟨.jsonError s m, st2, false, false, none⟩
      | .ok =>
        match body.cardDetails with
        | none => catchFailure st2 production cardNumberTypeError false false
        | some cd =>
          match cd.expiryDate with
          | none => catchFailure st2 production expirySplitTypeError false false
          | some exp =>
            let mp : MethodParams :=
              ⟨cd.cardNumber, parseIntJs ((jsSplitSlash exp).headD ""),
                ((jsSplitSlash exp)[1]?).bind parseIntJs, cd.cvv⟩
            match g.createMethod mp with
            | .error e => catchFailure st2 production e true false
            | .ok pmId =>
              match stripeCreatePaymentIntent g (jsNumOf body.amount)
                  (body.currency.getD "") pmId with
              | .error e => catchFailure st2 production e true true
              | .ok intent =>
                ⟨.success 201 intent.id intent.intentStatus ((intent.amount : ℚ) / 100)
                    intent.currency, st2, true, true, none⟩

/-- Result of one GET /payments/:id request. -/
structure GetOutcome where
  response : Response
  state : AppState
  handledError : Option JsError
  deriving DecidableEq

/-- Embedding of one GET /payments/:paymentIntentId request (payments.js
lines 54-72) through both general limiters: retrieve the intent and
respond 200, or pass the gateway error to `next(error)` and hence to the
central error handler. -/
def getPayment (st : AppState) (production : Bool) (pid : String)
    (g : Gateway) : GetOutcome :=
  let appG := st.appGeneral + 1
  let st1 := { st with appGeneral := appG }
  if appG > 100 then
    ⟨.plainText 429 "Too many requests, please try again later.", st1, none⟩
  else
    let routeG := st1.routeGeneral + 1
    let st2 := { st1 with routeGeneral := routeG }
    if routeG > 100 then
      ⟨.jsonError 429 "Too many payment requests, please try again later", st2, none⟩
    else
      match g.retrieveIntent pid with
      | .ok intent =>
        ⟨.success 200 intent.id intent.intentStatus ((intent.amount : ℚ) / 100)
            intent.currency, st2, none⟩
      | .error e => ⟨errorHandler e production, st2, some e⟩

/-- A concrete gateway that accepts every payment method and echoes the
requested amount and currency back on the created intent, as the real
gateway does on success; used to evaluate the pipeline on concrete
inputs. -/
def gwEcho : Gateway where
  createMethod := fun _ => .ok "pm_1"
  createIntent := fun p => .ok ⟨"pi_1", "succeeded", p.amount, p.currency⟩
  retrieveIntent := fun pid => .ok ⟨pid, "succeeded", 10000, "usd"⟩

/-- A concrete request body with a valid card, parameterized by the
amount. -/
def sampleBody (q : ℚ) : Body :=
  ⟨some (.num q), some "USD", some "credit_card",
    some ⟨some "4242424242424242", some "12/99", some "123"⟩⟩

end Fortress

namespace Fortress

/-! ### Specification-side definitions -/

/-- Luhn checksum as the specification words it, over the digit list
read from the right: starting with the rightmost digit undoubled, every
second digit is doubled (reduced by 9 when the double exceeds 9) and all
are summed. -/
def luhnSumRev : List ℕ → Bool → ℕ
  | [], _ => 0
  | d :: rest, dbl => luhnSumRev rest (!dbl) + luhnDigit dbl d

/-- Luhn checksum of a digit list given most-significant first. -/
def luhnChecksum (ds : List ℕ) : ℕ := luhnSumRev ds.reverse false

/-- The status the error handler resolves for an error: the three
name-keyed overrides, else `err.status || 500`. -/
def resolvedStatus (e : JsError) : ℕ :=
  if e.name = "ValidationError" then 400
  else if e.name = "UnauthorizedError" then 401
  else if e.name = "ForbiddenError" then 403
  else statusOr500 e

/-- A concrete gateway that does not recognize any payment intent id,
rejecting retrieval the way the Stripe SDK does: an error object whose
`message` names the unknown id and which carries no `status` field. -/
def gwUnknown : Gateway where
  createMethod := fun _ => .error ⟨"StripeInvalidRequestError", "No such payment_method", none⟩
  createIntent := fun _ => .error ⟨"StripeInvalidRequestError", "No such payment_intent", none⟩
  retrieveIntent := fun _ =>
    .error ⟨"StripeInvalidRequestError", "No such payment_intent: pi_unknown", none⟩

/-- A request body whose `amount` is present but zero. -/
def bodyAmountZero : Body :=
  ⟨some (.num 0), some "USD", some "credit_card", none⟩

/-- A request body whose `amount` is present but negative. -/
def bodyAmountNeg : Body :=
  ⟨some (.num (-5)), some "USD", some "credit_card", none⟩

/-- A bank-transfer request body with no `cardDetails` field; the
validator accepts it. -/
def bodyBankTransfer : Body :=
  ⟨some (.num 50), some "USD", some "bank_transfer", none⟩

/-! ### Character and list lemmas -/

theorem digit_not_whitespace {c : Char} (h : c.isDigit = true) : c.isWhitespace = false := by
  rcases hw : c.isWhitespace with _ | _
  · rfl
  · exfalso
    simp only [Char.isWhitespace, Bool.or_eq_true, decide_eq_true_eq] at hw
    rcases hw with ((rfl | rfl) | rfl) | rfl <;> exact absurd h (by decide)

theorem digit_ne_dash {c : Char} (h : c.isDigit = true) : c ≠ '-' := by
  rintro rfl; exact absurd h (by decide)

theorem digit_ne_plus {c : Char} (h : c.isDigit = true) : c ≠ '+' := by
  rintro rfl; exact absurd h (by decide)

theorem digit_ne_slash {c : Char} (h : c.isDigit = true) : c ≠ '/' := by
  rintro rfl; exact absurd h (by decide)

theorem takeWhile_all {p : Char → Bool} {l : List Char} (h : ∀ c ∈ l, p c = true) :
    l.takeWhile p = l := by
  induction l with
  | nil => rfl
  | cons c rest ih =>
    rw [List.takeWhile_cons]
    simp [h c (List.mem_cons_self c rest), ih (fun x hx => h x (List.mem_cons_of_mem c hx))]

/-! ### Luhn loop characterization -/

theorem luhnLoop_digits (cs : List Char) (b : Bool) (h : ∀ c ∈ cs, c.isDigit = true) :
    luhnLoop cs b = some (luhnSumRev (cs.map charDigitVal) b) := by
  induction cs generalizing b with
  | nil => rfl
  | cons c rest ih =>
    have hc : c.isDigit = true := h c (List.mem_cons_self c rest)
    have hr := ih (fun x hx => h x (List.mem_cons_of_mem c hx)) (b := !b)
    rw [luhnLoop, hr]
    simp [hc, luhnSumRev]

/-! ### parseInt and split characterizations -/

theorem parseIntChars_digits (cs : List Char) (hne : cs ≠ [])
    (h : ∀ c ∈ cs, c.isDigit = true) : parseIntChars cs = some (digitsVal cs : ℤ) := by
  match cs, hne with
  | c :: rest, _ =>
    have hc : c.isDigit = true := h c (List.mem_cons_self c rest)
    have hdrop : (c :: rest).dropWhile Char.isWhitespace = c :: rest := by
      rw [List.dropWhile_cons, digit_not_whitespace hc]
      simp
    rw [parseIntChars, hdrop]
    simp only [digit_ne_dash hc, if_neg, digit_ne_plus hc, takeWhile_all h,
      if_false]
    have : ((c :: rest).isEmpty = true) = False := by simp
    simp [this]

theorem splitSlashAux_no_sep (cs : List Char) (h : '/' ∉ cs) (acc : List Char) :
    splitSlashAux cs acc = [String.mk (acc.reverse ++ cs)] := by
  induction cs generalizing acc with
  | nil => simp [splitSlashAux]
  | cons c rest ih =>
    have hc : c ≠ '/' := fun e => h (e ▸ List.mem_cons_self c rest)
    rw [splitSlashAux, if_neg hc, ih (fun hm => h (List.mem_cons_of_mem c hm))]
    simp

theorem splitSlashAux_sep (a b : List Char) (ha : '/' ∉ a) (acc : List Char) :
    splitSlashAux (a ++ '/' :: b) acc =
      String.mk (acc.reverse ++ a) :: splitSlashAux b [] := by
  induction a generalizing acc with
  | nil => simp [splitSlashAux]
  | cons c rest ih =>
    have hc : c ≠ '/' := fun e => ha (e ▸ List.mem_cons_self c rest)
    rw [List.cons_append, splitSlashAux, if_neg hc,
      ih (fun hm => ha (List.mem_cons_of_mem c hm))]
    simp

theorem jsSplitSlash_pair (ms ys : String) (hm : '/' ∉ ms.data) (hy : '/' ∉ ys.data) :
    jsSplitSlash (ms ++ "/" ++ ys) = [ms, ys] := by
  have hdata : (ms ++ "/" ++ ys).data = ms.data ++ '/' :: ys.data := by
    simp [String.data_append]
  rw [jsSplitSlash, hdata, splitSlashAux_sep _ _ hm, splitSlashAux_no_sep _ hy]
  simp

/-! ### Claim theorems: card validators -/

/-- C6: `validateCreditCard` strips spaces and dashes from its input and
returns true if and only if the Luhn checksum of the remaining digit
string — double every second digit from the right, subtract 9 from
doubled digits exceeding 9, sum — is 0 mod 10. -/
theorem claim_C6_card_number_luhn (s : String)
    (h : ∀ c ∈ s.data, c.isDigit = true ∨ c.isWhitespace = true ∨ c = '-') :
    (validateCreditCard s = true ↔
      luhnChecksum ((cleanCard s).map charDigitVal) % 10 = 0) := by
  have hd : ∀ c ∈ (cleanCard s).reverse, c.isDigit = true := by
    intro c hcrev
    rw [List.mem_reverse] at hcrev
    rw [cleanCard, List.mem_filter] at hcrev
    obtain ⟨hmem, hp⟩ := hcrev
    rcases h c hmem with h1 | h1 | h1
    · exact h1
    · rw [h1] at hp; simp at hp
    · subst h1; simp at hp
  rw [validateCreditCard, luhnLoop_digits _ _ hd, luhnChecksum]
  simp [List.map_reverse]

/-- C6 witness: the general theorem applied at the Luhn-valid
"4242424242424242" and the Luhn-invalid "4242424242424241". -/
theorem claim_C6_card_number_luhn_witness :
    ((∀ c ∈ ("4242424242424242" : String).data,
        c.isDigit = true ∨ c.isWhitespace = true ∨ c = '-') ∧
      (validateCreditCard "4242424242424242" = true ↔
        luhnChecksum ((cleanCard "4242424242424242").map charDigitVal) % 10 = 0)) ∧
    ((∀ c ∈ ("4242424242424241" : String).data,
        c.isDigit = true ∨ c.isWhitespace = true ∨ c = '-') ∧
      (validateCreditCard "4242424242424241" = true ↔
        luhnChecksum ((cleanCard "4242424242424241").map charDigitVal) % 10 = 0)) :=
  ⟨⟨by decide, claim_C6_card_number_luhn "4242424242424242" (by decide)⟩,
    ⟨by decide, claim_C6_card_number_luhn "4242424242424241" (by decide)⟩⟩

/-- C7: on an MM/YY input with numeric month and year parts,
`validateExpiryDate` returns false exactly when the encoded year is
strictly less than the current year mod 100, or the years are equal and
the encoded month is strictly less than the current month. -/
theorem claim_C7_expiry_comparison (ms ys : String) (now : DateYM)
    (hm : ms.data ≠ []) (hy : ys.data ≠ [])
    (hmd : ∀ c ∈ ms.data, c.isDigit = true) (hyd : ∀ c ∈ ys.data, c.isDigit = true)
    (hmlen : ms.data.length ≤ 2) (hylen : ys.data.length ≤ 2) :
    (validateExpiryDate (ms ++ "/" ++ ys) now = false ↔
      (digitsVal ys.data < now.fullYear % 100 ∨
        (digitsVal ys.data = now.fullYear % 100 ∧ digitsVal ms.data < now.month))) := by
  have hsm : '/' ∉ ms.data := fun hmem => digit_ne_slash (hmd _ hmem) rfl
  have hsy : '/' ∉ ys.data := fun hmem => digit_ne_slash (hyd _ hmem) rfl
  have hflip : ∀ b : Bool, ((if b then false else true) = false) ↔ b = true := by decide
  rw [validateExpiryDate]
  simp only [jsSplitSlash_pair ms ys hsm hsy, List.headD_cons]
  have h1 : ([ms, ys][1]? : Option String) = some ys := rfl
  rw [h1]
  simp only [Option.some_bind, parseIntJs,
    parseIntChars_digits ms.data hm hmd, parseIntChars_digits ys.data hy hyd]
  rw [hflip]
  simp only [jsLtO, jsEqO, Bool.or_eq_true, Bool.and_eq_true, decide_eq_true_eq]
  omega

/-- C7 witness: "12/20" evaluated in January 2021 is expired. -/
theorem claim_C7_expiry_comparison_witness :
    (("12" : String).data ≠ [] ∧ ("20" : String).data ≠ [] ∧
      (∀ c ∈ ("12" : String).data, c.isDigit = true) ∧
      (∀ c ∈ ("20" : String).data, c.isDigit = true) ∧
      ("12" : String).data.length ≤ 2 ∧ ("20" : String).data.length ≤ 2) ∧
    (validateExpiryDate ("12" ++ "/" ++ "20") ⟨2021, 1⟩ = false ↔
      (digitsVal ("20" : String).data < 2021 % 100 ∨
        (digitsVal ("20" : String).data = 2021 % 100 ∧
          digitsVal ("12" : String).data < 1))) :=
  ⟨⟨by decide, by decide, by decide, by decide, by decide, by decide⟩,
    claim_C7_expiry_comparison "12" "20" ⟨2021, 1⟩ (by decide) (by decide)
      (by decide) (by decide) (by decide) (by decide)⟩

/-- C10 counterexample: "ab/05" has a non-numeric month part — inside
the claim's scope of strings with non-numeric month or year parts — yet
`validateExpiryDate` returns false (not true) in October 2026, because
the numeric year part 05 is compared normally. -/
theorem claim_C10_counterexample :
    parseIntJs ((jsSplitSlash "ab/05").headD "") = none ∧
    validateExpiryDate "ab/05" ⟨2026, 10⟩ = false := by
  decide

/-- C10 (amended): whenever the year part parses to no number — in
particular for any string without a slash, where the year is undefined,
and for strings like "1225" or "ab/cd" — `validateExpiryDate` returns
true, because both NaN comparisons against the current year are
false. -/
theorem claim_C10_no_numeric_year (s : String) (now : DateYM)
    (h : ((jsSplitSlash s)[1]?).bind parseIntJs = none) :
    validateExpiryDate s now = true := by
  rw [validateExpiryDate]
  simp only [h, jsLtO, jsEqO]
  simp

/-- C10 witness: the amended theorem applied at "1225" and "ab/cd". -/
theorem claim_C10_no_numeric_year_witness :
    (((jsSplitSlash "1225")[1]?).bind parseIntJs = none ∧
      validateExpiryDate "1225" ⟨2026, 10⟩ = true) ∧
    (((jsSplitSlash "ab/cd")[1]?).bind parseIntJs = none ∧
      validateExpiryDate "ab/cd" ⟨2026, 10⟩ = true) :=
  ⟨⟨by decide, claim_C10_no_numeric_year "1225" ⟨2026, 10⟩ (by decide)⟩,
    ⟨by decide, claim_C10_no_numeric_year "ab/cd" ⟨2026, 10⟩ (by decide)⟩⟩

/-! ### Claim theorems: request validator -/

/-- C5 counterexample: with amount 0 present alongside currency and
paymentMethod — an amount that is not a positive number — the validator
responds with the missing-fields message, not "Amount must be a positive
number", because `!amount` is true for 0. -/
theorem claim_C5_counterexample :
    validatePayment bodyAmountZero ⟨2026, 10⟩ =
      .reject 400 "Missing required fields: amount, currency, and paymentMethod are required" ∧
    validatePayment bodyAmountZero ⟨2026, 10⟩ ≠
      .reject 400 "Amount must be a positive number" := by
  decide

/-- C5 (amended): for every request body whose amount, currency and
paymentMethod are present and truthy (which excludes amount 0 and NaN,
rejected by the presence check instead) and whose amount is not a
positive number, the validator responds 400 "Amount must be a positive
number". -/
theorem claim_C5_amount_not_positive (body : Body) (now : DateYM)
    (h1 : truthyOV body.amount = true) (h2 : truthyOS body.currency = true)
    (h3 : truthyOS body.paymentMethod = true)
    (h4 : amountNotPositiveNumber body.amount = true) :
    validatePayment body now = .reject 400 "Amount must be a positive number" := by
  rw [validatePayment]
  simp [h1, h2, h3, h4]

/-- C5 witness: the amended theorem applied at amount -5. -/
theorem claim_C5_amount_not_positive_witness :
    (truthyOV bodyAmountNeg.amount = true ∧ truthyOS bodyAmountNeg.currency = true ∧
      truthyOS bodyAmountNeg.paymentMethod = true ∧
      amountNotPositiveNumber bodyAmountNeg.amount = true) ∧
    validatePayment bodyAmountNeg ⟨2026, 10⟩ =
      .reject 400 "Amount must be a positive number" :=
  ⟨⟨by decide, by decide, by decide, by decide⟩,
    claim_C5_amount_not_positive bodyAmountNeg ⟨2026, 10⟩
      (by decide) (by decide) (by decide) (by decide)⟩

/-! ### Claim theorems: error handler -/

/-- C8 counterexample: outside production, an error named
"ValidationError" with message "boom" does not have its message passed
through: the handler replaces it with the fixed string "Validation
Error". -/
theorem claim_C8_counterexample :
    errorHandler ⟨"ValidationError", "boom", none⟩ false =
      .errorEnvelope 400 "Validation Error" ∧
    ("Validation Error" : String) ≠ "boom" := by
  decide

/-- C8 (amended): in production a resolved 500 status always yields the
generic "Internal Server Error" message; in other environments the
original message passes through unchanged unless the error name is one
of ValidationError, UnauthorizedError, ForbiddenError (replaced by fixed
strings) or the message is empty (replaced by the generic default). -/
theorem claim_C8_production_masking (e : JsError) (production : Bool) :
    (production = true → resolvedStatus e = 500 →
      errorHandler e production = .errorEnvelope 500 "Internal Server Error") ∧
    (production = false → e.name ≠ "ValidationError" → e.name ≠ "UnauthorizedError" →
      e.name ≠ "ForbiddenError" → e.message ≠ "" →
      errorHandler e production = .errorEnvelope (statusOr500 e) e.message) := by
  constructor
  · intro hp hs
    subst hp
    rw [resolvedStatus] at hs
    rw [errorHandler]
    split_ifs at hs with hv hu hf
    · omega
    · omega
    · omega
    · simp [hv, hu, hf, hs]
  · intro hp hv hu hf hm
    subst hp
    rw [errorHandler]
    simp [hv, hu, hf, hm]

/-- C8 witness: the amended theorem applied to a plain error with no
status, in production and in development. -/
theorem claim_C8_production_masking_witness :
    errorHandler ⟨"Error", "boom", none⟩ true = .errorEnvelope 500 "Internal Server Error" ∧
    errorHandler ⟨"Error", "boom", none⟩ false = .errorEnvelope 500 "boom" :=
  ⟨(claim_C8_production_masking ⟨"Error", "boom", none⟩ true).1 rfl (by decide),
    (claim_C8_production_masking ⟨"Error", "boom", none⟩ false).2 rfl
      (by decide) (by decide) (by decide) (by decide)⟩

/-! ### Claim theorems: routes and rate limiting -/

/-- C2: evaluating the code at the failing input — a GET
/payments/:paymentIntentId whose id the gateway does not recognize — the
response is the error handler's 500 envelope carrying the gateway
error's own message, not 404 "Payment not found": the handler has no
NotFound or GatewayDeclined mapping and falls back to
`err.status || 500`. -/
theorem claim_C2_unknown_id_500 :
    (getPayment ⟨0, 0, 0⟩ false "pi_unknown" gwUnknown).response =
      .errorEnvelope 500 "No such payment_intent: pi_unknown" ∧
    (getPayment ⟨0, 0, 0⟩ false "pi_unknown" gwUnknown).response.statusCode ≠ 404 := by
  decide

/-- C4 counterexample: on the 101st request from an IP inside the
15-minute window, the response body is the app-wide limiter's plain
default message, not the payment tier's JSON message: the app-wide
limiter (same window and limit) is counted first and trips first. -/
theorem claim_C4_counterexample :
    (postPayment ⟨100, 100, 0⟩ false (sampleBody 100) ⟨2026, 10⟩ gwEcho).response =
      .plainText 429 "Too many requests, please try again later." ∧
    (postPayment ⟨100, 100, 0⟩ false (sampleBody 100) ⟨2026, 10⟩ gwEcho).response ≠
      .jsonError 429 "Too many payment requests, please try again later" := by
  decide

/-- C4 (amended): once an IP has 100 counted requests in the app-wide
limiter's window, any further request is answered 429 with
express-rate-limit's default message "Too many requests, please try
again later." before the router-level payment limiter, the validator or
the handler run. -/
theorem claim_C4_app_limiter_first (st : AppState) (production : Bool) (body : Body)
    (now : DateYM) (g : Gateway) (h : 100 ≤ st.appGeneral) :
    postPayment st production body now g =
      ⟨.plainText 429 "Too many requests, please try again later.",
        { st with appGeneral := st.appGeneral + 1 }, false, false, none⟩ := by
  unfold postPayment
  dsimp only
  rw [if_pos (show st.appGeneral + 1 > 100 by omega)]

/-- C4 witness: the amended theorem at a counter of exactly 100. -/
theorem claim_C4_app_limiter_first_witness :
    100 ≤ (100 : ℕ) ∧
    postPayment ⟨100, 0, 0⟩ false (sampleBody 100) ⟨2026, 10⟩ gwEcho =
      ⟨.plainText 429 "Too many requests, please try again later.",
        ⟨101, 0, 0⟩, false, false, none⟩ :=
  ⟨by decide,
    claim_C4_app_limiter_first ⟨100, 0, 0⟩ false (sampleBody 100) ⟨2026, 10⟩ gwEcho
      (by decide)⟩

/-- C1 counterexample: a POST whose processing fails with a validation
rejection (amount -5) leaves the failed-attempt counter untouched and
never reaches the error handler: the validator responds 400 directly,
so not every failed payment attempt counts toward the failed tier. -/
theorem claim_C1_counterexample :
    (postPayment ⟨0, 0, 0⟩ false bodyAmountNeg ⟨2026, 10⟩ gwEcho).response =
      .jsonError 400 "Amount must be a positive number" ∧
    (postPayment ⟨0, 0, 0⟩ false bodyAmountNeg ⟨2026, 10⟩ gwEcho).state.failed = 0 ∧
    (postPayment ⟨0, 0, 0⟩ false bodyAmountNeg ⟨2026, 10⟩ gwEcho).handledError = none := by
  decide

/-- C1 (amended): the failed-attempt counter is incremented exactly for
the failures thrown inside the POST handler — the ones passed to the
error handler — while a validation rejection responds 400 directly with
the failed-attempt counter unchanged and no error handed to the error
handler. -/
theorem claim_C1_failed_tier_scope (st : AppState) (production : Bool) (body : Body)
    (now : DateYM) (g : Gateway) :
    ((postPayment st production body now g).state.failed =
      st.failed +
        (if (postPayment st production body now g).handledError.isSome then 1 else 0)) ∧
    (∀ s m, validatePayment body now = .reject s m →
      st.appGeneral < 100 → st.routeGeneral < 100 →
      (postPayment st production body now g).handledError = none ∧
      (postPayment st production body now g).response = .jsonError s m ∧
      (postPayment st production body now g).state.failed = st.failed) := by
  constructor
  · unfold postPayment
    dsimp only
    repeat' split
    all_goals simp_all [catchFailure]
  · intro s m hv h1 h2
    unfold postPayment
    dsimp only
    rw [if_neg (show ¬ st.appGeneral + 1 > 100 by omega),
      if_neg (show ¬ st.routeGeneral + 1 > 100 by omega)]
    simp [hv]

/-- C1 witness: the amended theorem applied to the validation-rejected
amount -5 request from a fresh IP. -/
theorem claim_C1_failed_tier_scope_witness :
    (validatePayment bodyAmountNeg ⟨2026, 10⟩ =
        .reject 400 "Amount must be a positive number" ∧
      (0 : ℕ) < 100 ∧ (0 : ℕ) < 100) ∧
    ((postPayment ⟨0, 0, 0⟩ false bodyAmountNeg ⟨2026, 10⟩ gwEcho).handledError = none ∧
      (postPayment ⟨0, 0, 0⟩ false bodyAmountNeg ⟨2026, 10⟩ gwEcho).response =
        .jsonError 400 "Amount must be a positive number" ∧
      (postPayment ⟨0, 0, 0⟩ false bodyAmountNeg ⟨2026, 10⟩ gwEcho).state.failed = 0) :=
  ⟨⟨by decide, by decide, by decide⟩,
    (claim_C1_failed_tier_scope ⟨0, 0, 0⟩ false bodyAmountNeg ⟨2026, 10⟩ gwEcho).2
      400 "Amount must be a positive number" (by decide) (by decide) (by decide)⟩

/-- C9: a validated bank-transfer request with no cardDetails throws a
TypeError reading `cardDetails.cardNumber` before any gateway call: the
error goes to the error handler, the response is 500 (when the
failed-attempt tier has room), the failed counter is incremented, and no
bank transfer is processed. -/
theorem claim_C9_bank_transfer_typeerror (st : AppState) (production : Bool)
    (body : Body) (now : DateYM) (g : Gateway)
    (h1 : st.appGeneral < 100) (h2 : st.routeGeneral < 100) (h5 : st.failed < 5)
    (hv : validatePayment body now = .ok)
    (hpm : body.paymentMethod = some "bank_transfer")
    (hcd : body.cardDetails = none) :
    (postPayment st production body now g).gatewayMethodCalled = false ∧
    (postPayment st production body now g).gatewayIntentCalled = false ∧
    (postPayment st production body now g).handledError = some cardNumberTypeError ∧
    (postPayment st production body now g).response.statusCode = 500 ∧
    (postPayment st production body now g).state.failed = st.failed + 1 := by
  have hEH : ∀ p : Bool, (errorHandler cardNumberTypeError p).statusCode = 500 := by
    decide
  unfold postPayment
  dsimp only
  rw [if_neg (show ¬ st.appGeneral + 1 > 100 by omega),
    if_neg (show ¬ st.routeGeneral + 1 > 100 by omega)]
  simp only [hv, hcd, catchFailure]
  refine ⟨trivial, trivial, trivial, ?_, trivial⟩
  rw [if_neg (show ¬ st.failed + 1 > 5 by omega)]
  exact hEH production

/-- C9 witness: the theorem applied to a concrete bank-transfer body
from a fresh IP. -/
theorem claim_C9_bank_transfer_typeerror_witness :
    ((0 : ℕ) < 100 ∧ (0 : ℕ) < 100 ∧ (0 : ℕ) < 5 ∧
      validatePayment bodyBankTransfer ⟨2026, 10⟩ = .ok ∧
      bodyBankTransfer.paymentMethod = some "bank_transfer" ∧
      bodyBankTransfer.cardDetails = none) ∧
    ((postPayment ⟨0, 0, 0⟩ false bodyBankTransfer ⟨2026, 10⟩ gwEcho).gatewayMethodCalled
        = false ∧
      (postPayment ⟨0, 0, 0⟩ false bodyBankTransfer ⟨2026, 10⟩ gwEcho).gatewayIntentCalled
        = false ∧
      (postPayment ⟨0, 0, 0⟩ false bodyBankTransfer ⟨2026, 10⟩ gwEcho).handledError
        = some cardNumberTypeError ∧
      (postPayment ⟨0, 0, 0⟩ false bodyBankTransfer ⟨2026, 10⟩ gwEcho).response.statusCode
        = 500 ∧
      (postPayment ⟨0, 0, 0⟩ false bodyBankTransfer ⟨2026, 10⟩ gwEcho).state.failed
        = 0 + 1) :=
  ⟨⟨by decide, by decide, by decide, by decide, by decide, by decide⟩,
    claim_C9_bank_transfer_typeerror ⟨0, 0, 0⟩ false bodyBankTransfer ⟨2026, 10⟩ gwEcho
      (by decide) (by decide) (by decide) (by decide) (by decide) (by decide)⟩

/-! ### Amount round trip (C3) -/

theorem validatePayment_ok_card (body : Body) (now : DateYM)
    (hv : validatePayment body now = .ok)
    (hpm : body.paymentMethod = some "credit_card") :
    ∃ cd exp, body.cardDetails = some cd ∧ cd.expiryDate = some exp := by
  match hcd : body.cardDetails with
  | some cd =>
    match hexp : cd.expiryDate with
    | some exp => exact ⟨cd, exp, rfl, hexp⟩
    | none =>
      exfalso
      rw [validatePayment, hcd, hpm] at hv
      split at hv
      · exact ValidationResult.noConfusion hv
      split at hv
      · exact ValidationResult.noConfusion hv
      split at hv
      · exact ValidationResult.noConfusion hv
      split at hv
      · exact ValidationResult.noConfusion hv
      rw [if_pos rfl] at hv
      simp only [truthyOS, hexp] at hv
      split at hv
      · exact ValidationResult.noConfusion hv
      · simp_all
  | none =>
    exfalso
    rw [validatePayment, hcd, hpm] at hv
    split at hv
    · exact ValidationResult.noConfusion hv
    split at hv
    · exact ValidationResult.noConfusion hv
    split at hv
    · exact ValidationResult.noConfusion hv
    split at hv
    · exact ValidationResult.noConfusion hv
    rw [if_pos rfl] at hv
    exact ValidationResult.noConfusion hv

theorem jsRound_cents (q : ℚ) (h : (q.den : ℕ) ∣ 100) :
    ((jsRound (q * 100) : ℤ) : ℚ) = q * 100 := by
  obtain ⟨k, hk⟩ := h
  have hden : (q.den : ℚ) ≠ 0 := by
    exact_mod_cast q.den_pos.ne'
  have hnum : (q.num : ℚ) = q * (q.den : ℚ) := by
    have h3 := Rat.num_div_den q
    rw [div_eq_iff hden] at h3
    exact h3
  have h100 : (100 : ℚ) = (q.den : ℚ) * (k : ℚ) := by
    exact_mod_cast congrArg (Nat.cast : ℕ → ℚ) hk
  have hq : q * 100 = ((q.num * k : ℤ) : ℚ) := by
    rw [h100, ← mul_assoc, ← hnum]
    push_cast
    ring
  have hfloor : ∀ r : ℚ, r.floor = ⌊r⌋ := by
    intro r
    rw [Rat.floor_def']
    exact Rat.floor_def.symm
  rw [jsRound, hq, hfloor]
  rw [Int.floor_int_add]
  norm_num

/-- C3 counterexample: a successful POST with input amount 1/250
(0.004, a positive number the validator accepts) responds with amount 0,
not the input: `Math.round(0.4) = 0` and `0 / 100 = 0`. -/
theorem claim_C3_counterexample :
    (postPayment ⟨0, 0, 0⟩ false (sampleBody (1 / 250)) ⟨2026, 10⟩ gwEcho).response =
      .success 201 "pi_1" "succeeded" 0 "usd" ∧
    (0 : ℚ) ≠ 1 / 250 := by
  constructor
  · with_unfolding_all rfl
  · norm_num

/-- C3 (amended): for every successful POST whose input amount is a
whole number of cents (denominator dividing 100), the amount of the 201
response equals the input amount: rounding to minor units and dividing
by 100 compose to the identity on such amounts, provided the gateway
echoes the requested minor-unit amount on the created intent. -/
theorem claim_C3_amount_round_trip (st : AppState) (production : Bool) (body : Body)
    (now : DateYM) (g : Gateway) (q : ℚ)
    (h1 : st.appGeneral < 100) (h2 : st.routeGeneral < 100)
    (hv : validatePayment body now = .ok)
    (hpm : body.paymentMethod = some "credit_card")
    (hq : body.amount = some (.num q))
    (hcents : (q.den : ℕ) ∣ 100)
    (hgm : ∀ mp, ∃ pm, g.createMethod mp = .ok pm)
    (hgi : ∀ p, ∃ i, g.createIntent p = .ok i ∧ i.amount = p.amount) :
    ∃ pid sts cur, (postPayment st production body now g).response =
      .success 201 pid sts q cur := by
  obtain ⟨cd, exp, hcd, hexp⟩ := validatePayment_ok_card body now hv hpm
  obtain ⟨pm, hpmOk⟩ := hgm ⟨cd.cardNumber, parseIntJs ((jsSplitSlash exp).headD ""),
    ((jsSplitSlash exp)[1]?).bind parseIntJs, cd.cvv⟩
  obtain ⟨i, hiOk, hiAmt⟩ := hgi
    ⟨jsRound (q * 100), jsToLower (body.currency.getD ""), pm⟩
  have hdiv : ((i.amount : ℚ)) / 100 = q := by
    rw [hiAmt]
    rw [jsRound_cents q hcents]
    field_simp
  unfold postPayment
  dsimp only
  rw [if_neg (show ¬ st.appGeneral + 1 > 100 by omega),
    if_neg (show ¬ st.routeGeneral + 1 > 100 by omega)]
  simp only [hv, hcd, hexp, hpmOk, stripeCreatePaymentIntent, hq, jsNumOf, hiOk]
  exact ⟨i.id, i.intentStatus, i.currency, by rw [hdiv]⟩

/-- C3 witness: the amended theorem applied to a fresh IP, the echoing
gateway and amount 100. -/
theorem claim_C3_amount_round_trip_witness :
    ((0 : ℕ) < 100 ∧ (0 : ℕ) < 100 ∧
      validatePayment (sampleBody 100) ⟨2026, 10⟩ = .ok ∧
      (sampleBody 100).paymentMethod = some "credit_card" ∧
      (sampleBody 100).amount = some (.num 100) ∧
      ((100 : ℚ).den : ℕ) ∣ 100 ∧
      (∀ mp, ∃ pm, gwEcho.createMethod mp = .ok pm) ∧
      (∀ p, ∃ i, gwEcho.createIntent p = .ok i ∧ i.amount = p.amount)) ∧
    (∃ pid sts cur,
      (postPayment ⟨0, 0, 0⟩ false (sampleBody 100) ⟨2026, 10⟩ gwEcho).response =
        .success 201 pid sts 100 cur) :=
  ⟨⟨by decide, by decide, by decide, rfl, rfl, by decide,
      fun _ => ⟨"pm_1", rfl⟩,
      fun p => ⟨⟨"pi_1", "succeeded", p.amount, p.currency⟩, rfl, rfl⟩⟩,
    claim_C3_amount_round_trip ⟨0, 0, 0⟩ false (sampleBody 100) ⟨2026, 10⟩ gwEcho 100
      (by decide) (by decide) (by decide) rfl rfl (by decide)
      (fun _ => ⟨"pm_1", rfl⟩)
      (fun p => ⟨⟨"pi_1", "succeeded", p.amount, p.currency⟩, rfl, rfl⟩)⟩

end Fortress
